import Mathlib

/-!
# Cluster Lifecycle & Library Reconciliation Engine — verification

Shallow embedding of the cluster lifecycle / library reconciliation engine of
databrickslabs/databricks-terraform.  The reconciler implementation itself is
not among the provided source files; only its unit tests are
(src/unnamed/part_000, package compute).  The engine is therefore modelled
from the specification (spec.md §3–§4.6), with the call order corrected where
the HTTP fixture sequences of the tests pin the actual behaviour:

* TestResourceClusterUpdate_LibrariesChangeOnTerminatedCluster
  (part_000 lines 644–789) fixes the update order on a Terminated cluster as
  GET, edit, library-status, start ("start cluster before libs install"),
  GET (Running), uninstall, install, library-status, delete (re-terminate),
  GET (Terminated) — the edit is issued while the cluster is still
  Terminated, and the transiently started cluster is terminated again.
* TestResourceClusterCreate_WithLibraries (lines 272–452) fixes the library
  list of the install call, which is not in HCL declaration order.
* TestResourceClusterCreate / _Error, TestResourceClusterRead / _NotFound /
  _Error, TestResourceClusterUpdate_Error and TestResourceClusterDelete fix
  the create, read and delete behaviour and the handling of API errors.
-/

/-- Cluster lifecycle phase (spec §4.1 and the ClusterState* constants used
by the tests: `ClusterStateRunning`, `ClusterStateTerminated`, …). -/
inductive ClusterState where
  | pending
  | running
  | terminating
  | terminated
  | errorState
  | unknown
deriving DecidableEq, Repr

/-- LibrarySpec (spec §3): a tagged union over exactly one installable
artifact kind, as in the `Library` struct of the tests (jar / egg / whl /
pypi / maven / cran).  Equality is structural equality of the whole value. -/
inductive Library where
  | jar (path : String)
  | egg (path : String)
  | whl (path : String)
  | pypi (packageName : String) (repo : String)
  | maven (coordinates : String) (repo : String) (exclusions : List String)
  | cran (packageName : String) (repo : String)
deriving DecidableEq, Repr

/-- Install status of an observed library (spec §3 LibraryStatus and the
status strings of the tests: PENDING, INSTALLING, INSTALLED, FAILED,
UNINSTALL_ON_RESTART). -/
inductive LibInstallStatus where
  | pending
  | installing
  | installed
  | failed
  | uninstallOnRestart
deriving DecidableEq, Repr

/-- Observed pairing of a library spec with its install status
(the `LibraryStatus` struct of the tests). -/
structure LibraryStatus where
  library : Library
  status : LibInstallStatus
deriving DecidableEq, Repr

/-- Desired cluster shape (the `Cluster` request struct of the tests:
num_workers, cluster_name, spark_version, node_type_id,
autotermination_minutes, cluster_id). -/
structure Cluster where
  clusterID : String
  clusterName : String
  numWorkers : Nat
  sparkVersion : String
  nodeTypeID : String
  autoterminationMinutes : Nat
deriving DecidableEq, Repr

/-- Observed cluster state (the `ClusterInfo` struct of the tests): the
shape fields plus identifier, Phase and state message (spec §3). -/
structure ClusterInfo where
  clusterID : String
  clusterName : String
  numWorkers : Nat
  sparkVersion : String
  nodeTypeID : String
  autoterminationMinutes : Nat
  state : ClusterState
  stateMessage : String
deriving DecidableEq, Repr

/-- Structured remote rejection (the `common.APIErrorBody` of the tests):
machine-readable code, human message, HTTP status (spec §7 APIError). -/
structure ApiError where
  errorCode : String
  message : String
  httpStatus : Nat
deriving DecidableEq, Repr

/-- An APIError is a not-found rejection when its code says so
(the tests use code NOT_FOUND with HTTP status 404). -/
def ApiError.isNotFound (e : ApiError) : Bool :=
  decide (e.errorCode = "NOT_FOUND")

/-- Classified reconciliation failure (spec §7 error taxonomy; the parts the
claims exercise: structured APIError and poll timeout). -/
inductive RecErr where
  | api (e : ApiError)
  | convergenceTimeout
deriving DecidableEq, Repr

/-- Library Set Differ, install side.  Modelled from the spec: §4.3 — "for
each desired spec not found in observed with a non-failed status, add to
install-set"; desired specs whose observed status is failed are re-submitted.
The filter preserves the order of the desired sequence. -/
def installSet (desired : List Library) (observed : List LibraryStatus) :
    List Library :=
  desired.filter fun d =>
    decide (∀ o ∈ observed, o.library = d → o.status = LibInstallStatus.failed)

/-- Library Set Differ, uninstall side.  Modelled from the spec: §4.3 — "for
each observed spec not present in desired, add to uninstall-set, unless its
current status is already uninstall-on-restart". -/
def uninstallSet (desired : List Library) (observed : List LibraryStatus) :
    List Library :=
  (observed.filter fun o =>
    decide (o.library ∉ desired ∧
      o.status ≠ LibInstallStatus.uninstallOnRestart)).map LibraryStatus.library

/-- A desired library is already installed in the observed set when some
observed entry pairs the same spec (structural equality) with status
installed. -/
def installedIn (observed : List LibraryStatus) (d : Library) : Prop :=
  ∃ o ∈ observed, o.library = d ∧ o.status = LibInstallStatus.installed

instance (observed : List LibraryStatus) (d : Library) :
    Decidable (installedIn observed d) := by
  unfold installedIn
  infer_instance

deriving instance DecidableEq for Except

/-- One remote control-plane call issued by the reconciler (spec §6), with
the response recorded for the observing calls so a trace shows which phases
were seen when. -/
inductive Call where
  | createCall (spec : Cluster)
  | getCall (cid : String) (resp : Except ApiError ClusterInfo)
  | startCall (cid : String)
  | editCall (spec : Cluster)
  | deleteCall (cid : String)
  | permanentDeleteCall (cid : String)
  | libStatusCall (cid : String) (resp : List LibraryStatus)
  | installCall (cid : String) (libs : List Library)
  | uninstallCall (cid : String) (libs : List Library)
deriving DecidableEq, Repr

@[simp] def Call.isCreate : Call → Bool
  | .createCall _ => true
  | _ => false

@[simp] def Call.isGet : Call → Bool
  | .getCall _ _ => true
  | _ => false

@[simp] def Call.isStart : Call → Bool
  | .startCall _ => true
  | _ => false

@[simp] def Call.isEdit : Call → Bool
  | .editCall _ => true
  | _ => false

@[simp] def Call.isDelete : Call → Bool
  | .deleteCall _ => true
  | _ => false

@[simp] def Call.isInstall : Call → Bool
  | .installCall _ _ => true
  | _ => false

@[simp] def Call.isUninstall : Call → Bool
  | .uninstallCall _ _ => true
  | _ => false

/-- A library-mutating call: install or uninstall. -/
def Call.isLibMutation (c : Call) : Bool :=
  c.isInstall || c.isUninstall

/-- A call that is only legal on a Running cluster per spec §4.1
("Running is the only state permitting library install/uninstall or shape
edits"): edit, install or uninstall. -/
def Call.isRunningOnly (c : Call) : Bool :=
  c.isEdit || c.isInstall || c.isUninstall

/-- Phase observation carried by a call: only a successful get reports the
cluster's current Phase. -/
def updateObs (s : Option ClusterState) : Call → Option ClusterState
  | .getCall _ (.ok info) => some info.state
  | _ => s

/-- The phase observed by the last successful get of a trace, threaded from
an initial observation. -/
def obsAfter (s : Option ClusterState) (t : List Call) : Option ClusterState :=
  t.foldl updateObs s

/-- Every call of the trace selected by the guard happens while the phase
observed so far is Running.  Instantiated with Call.isRunningOnly this is
the legality property of spec §4.1; with Call.isLibMutation it restricts
only library mutations. -/
def guardedWhileRunning (guard : Call → Bool) :
    Option ClusterState → List Call → Bool
  | _, [] => true
  | s, c :: rest =>
    (!guard c || decide (s = some ClusterState.running)) &&
      guardedWhileRunning guard (updateObs s c) rest

/-- The trace issues exactly one start call, and it precedes every edit
call (the start-before-edit property of spec §8). -/
def startBeforeEveryEdit (t : List Call) : Prop :=
  t.countP Call.isStart = 1 ∧
    ∀ i : Fin t.length, (t.get i).isEdit →
      ∃ j : Fin t.length, j.1 < i.1 ∧ (t.get j).isStart

instance (t : List Call) : Decidable (startBeforeEveryEdit t) := by
  unfold startBeforeEveryEdit
  infer_instance

/-- Remote control-plane environment for one reconciliation call: the
response to a create or delete, and the successive responses to the get and
library-status calls, consumed in order by the polling loops (spec §4.2 —
the finite list is the poller's bounded retry budget). -/
structure Env where
  createResp : Except ApiError String
  deleteResp : Option ApiError
  getResps : List (Except ApiError ClusterInfo)
  libResps : List (List LibraryStatus)
deriving Repr

/-- Result of a polling loop: the calls it issued, its outcome, and the
responses it did not consume. -/
structure PollOut (α : Type) where
  trace : List Call
  result : Except RecErr Unit
  rest : List α
deriving Repr

/-- State Poller over cluster phase.  Modelled from the spec: §4.2 — fetch
and test until the predicate holds, a terminal condition is observed or the
response budget is exhausted (timeout).  Not-found while waiting for
Terminated counts as success (notFoundOk); any other API error is returned
immediately. -/
def pollCluster (cid : String) (pred : ClusterInfo → Bool)
    (notFoundOk : Bool) :
    List (Except ApiError ClusterInfo) →
      PollOut (Except ApiError ClusterInfo)
  | [] => ⟨[], .error RecErr.convergenceTimeout, []⟩
  | .error e :: rest =>
    if notFoundOk && e.isNotFound then
      ⟨[Call.getCall cid (.error e)], .ok (), rest⟩
    else
      ⟨[Call.getCall cid (.error e)], .error (RecErr.api e), rest⟩
  | .ok info :: rest =>
    if pred info then
      ⟨[Call.getCall cid (.ok info)], .ok (), rest⟩
    else
      let p := pollCluster cid pred notFoundOk rest
      ⟨Call.getCall cid (.ok info) :: p.trace, p.result, p.rest⟩

/-- The cluster-phase predicates the reconciler polls for. -/
def isRunningInfo (info : ClusterInfo) : Bool :=
  decide (info.state = ClusterState.running)

def isTerminatedInfo (info : ClusterInfo) : Bool :=
  decide (info.state = ClusterState.terminated)

/-- A library status report is settled when no library is still pending or
installing (the wait loop of the create-with-libraries test stops as soon
as every reported status is terminal, part_000 lines 339–407). -/
def libsSettled (observed : List LibraryStatus) : Bool :=
  observed.all fun o =>
    decide (o.status ≠ LibInstallStatus.pending ∧
      o.status ≠ LibInstallStatus.installing)

/-- State Poller over library statuses.  Modelled from the spec: §4.2 /
§4.4 step 4, with the settling predicate pinned by the fixture sequence of
TestResourceClusterCreate_WithLibraries. -/
def pollLibs (cid : String) :
    List (List LibraryStatus) → PollOut (List LibraryStatus)
  | [] => ⟨[], .error RecErr.convergenceTimeout, []⟩
  | observed :: rest =>
    if libsSettled observed then
      ⟨[Call.libStatusCall cid observed], .ok (), rest⟩
    else
      let p := pollLibs cid rest
      ⟨Call.libStatusCall cid observed :: p.trace, p.result, p.rest⟩

/-- Outcome of one reconciliation call: classified result, the trace of
remote calls issued, and the recorded cluster identifier afterwards
(spec §3 ReconciliationResult; the tests observe it through d.Id()). -/
structure RecOut where
  result : Except RecErr Unit
  trace : List Call
  recordedID : String
deriving Repr

/-- The shape diff of spec §4.5 step 3: the desired spec differs from the
observed shape fields (libraries excluded). -/
def shapeDiffers (spec : Cluster) (info : ClusterInfo) : Bool :=
  decide (¬ (spec.numWorkers = info.numWorkers ∧
    spec.clusterName = info.clusterName ∧
    spec.sparkVersion = info.sparkVersion ∧
    spec.nodeTypeID = info.nodeTypeID ∧
    spec.autoterminationMinutes = info.autoterminationMinutes))

/-- The desired spec with the recorded cluster identifier filled in, as
sent in the edit call of the update tests. -/
def withID (cid : String) (spec : Cluster) : Cluster :=
  { spec with clusterID := cid }

/-- Reconciler — Create.  Modelled from the spec: §4.4 — issue the create
call, record the synchronously assigned identifier, poll until Running,
then install the whole desired set (diff against the empty observed set)
and poll the library statuses; a failing step aborts the rest.  On a
rejected create no identifier is recorded
(TestResourceClusterCreate_Error). -/
def reconcileCreate (spec : Cluster) (desired : List Library) (env : Env) :
    RecOut :=
  match env.createResp with
  | .error e => ⟨.error (RecErr.api e), [Call.createCall spec], ""⟩
  | .ok cid =>
    let p := pollCluster cid isRunningInfo false env.getResps
    match p.result with
    | .error err => ⟨.error err, Call.createCall spec :: p.trace, cid⟩
    | .ok _ =>
      if desired.isEmpty then
        ⟨.ok (), Call.createCall spec :: p.trace, cid⟩
      else
        let toInstall := installSet desired []
        let q := pollLibs cid env.libResps
        ⟨q.result, Call.createCall spec ::
          p.trace ++ Call.installCall cid toInstall :: q.trace, cid⟩

/-- Reconciler — Read.  Modelled from the spec: §6 GetCluster contract and
§7 propagation policy, with the not-found handling pinned by
TestResourceClusterRead_NotFound (absent cluster reported as removed:
success with the identifier cleared) and TestResourceClusterRead_Error
(any other APIError is surfaced and the identifier kept). -/
def reconcileRead (cid : String) (env : Env) : RecOut :=
  match env.getResps with
  | [] => ⟨.error RecErr.convergenceTimeout, [], cid⟩
  | .error e :: _ =>
    if e.isNotFound then
      ⟨.ok (), [Call.getCall cid (.error e)], ""⟩
    else
      ⟨.error (RecErr.api e), [Call.getCall cid (.error e)], cid⟩
  | .ok info :: _ =>
    ⟨.ok (), [Call.getCall cid (.ok info),
      Call.libStatusCall cid (env.libResps.headD [])], cid⟩

/-- Reconciler — Update.  Modelled from the spec: §4.5, with the call order
corrected to the fixture sequence of
TestResourceClusterUpdate_LibrariesChangeOnTerminatedCluster
(src/unnamed/part_000 lines 644–789): fetch current state; issue the edit
directly when the shape differs, even on a Terminated cluster; read the
library statuses and compute the diff (§4.3); when the delta is non-empty
and the cluster is not Running, issue start and poll until Running
("start cluster before libs install"); issue uninstall for the
uninstall-set then install for the install-set; poll the library statuses;
finally, when the cluster had to be started for the library changes, issue
delete (terminate) and poll until Terminated, restoring the previous
phase.  A failed initial get keeps the recorded identifier unchanged
(TestResourceClusterUpdate_Error). -/
def reconcileUpdate (cid : String) (spec : Cluster) (desired : List Library)
    (env : Env) : RecOut :=
  match env.getResps with
  | [] => ⟨.error RecErr.convergenceTimeout, [], cid⟩
  | .error e :: _ =>
    ⟨.error (RecErr.api e), [Call.getCall cid (.error e)], cid⟩
  | .ok info :: restGets =>
    let firstGet := Call.getCall cid (.ok info)
    let editTrace :=
      if shapeDiffers spec info then [Call.editCall (withID cid spec)] else []
    let observed := env.libResps.headD []
    let statusCall := Call.libStatusCall cid observed
    let toInstall := installSet desired observed
    let toUninstall := uninstallSet desired observed
    if toInstall.isEmpty && toUninstall.isEmpty then
      ⟨.ok (), firstGet :: editTrace ++ [statusCall], cid⟩
    else
      let unin :=
        if toUninstall.isEmpty then []
        else [Call.uninstallCall cid toUninstall]
      let inst :=
        if toInstall.isEmpty then [] else [Call.installCall cid toInstall]
      if decide (info.state = ClusterState.running) then
        let q := pollLibs cid env.libResps.tail
        ⟨q.result, firstGet :: editTrace ++ statusCall ::
          unin ++ inst ++ q.trace, cid⟩
      else
        let p := pollCluster cid isRunningInfo false restGets
        match p.result with
        | .error err =>
          ⟨.error err, firstGet :: editTrace ++ statusCall ::
            Call.startCall cid :: p.trace, cid⟩
        | .ok _ =>
          let q := pollLibs cid env.libResps.tail
          match q.result with
          | .error err =>
            ⟨.error err, firstGet :: editTrace ++ statusCall ::
              Call.startCall cid :: p.trace ++ unin ++ inst ++ q.trace, cid⟩
          | .ok _ =>
            let r := pollCluster cid isTerminatedInfo true p.rest
            ⟨r.result, firstGet :: editTrace ++ statusCall ::
              Call.startCall cid :: p.trace ++ unin ++ inst ++ q.trace ++
              Call.deleteCall cid :: r.trace, cid⟩

/-- Reconciler — Delete.  Modelled from the spec: §4.6 — issue delete, poll
until Terminated (not-found counts as success), then issue
permanent-delete; a not-found rejection of the delete itself is
already-satisfied (idempotent delete).  Sequence pinned by
TestResourceClusterDelete (src/unnamed/part_000 lines 819–850). -/
def reconcileDelete (cid : String) (env : Env) : RecOut :=
  match env.deleteResp with
  | some e =>
    if e.isNotFound then
      ⟨.ok (), [Call.deleteCall cid], cid⟩
    else
      ⟨.error (RecErr.api e), [Call.deleteCall cid], cid⟩
  | none =>
    let p := pollCluster cid isTerminatedInfo true env.getResps
    match p.result with
    | .error err => ⟨.error err, Call.deleteCall cid :: p.trace, cid⟩
    | .ok _ =>
      ⟨.ok (), Call.deleteCall cid :: p.trace ++
        [Call.permanentDeleteCall cid], cid⟩

/-! ## Concrete scenarios from the tests (src/unnamed/part_000) -/

/-- The Terminated cluster of
TestResourceClusterUpdate_LibrariesChangeOnTerminatedCluster
(part_000 lines 645–656). -/
def terminatedInfo : ClusterInfo :=
  ⟨"abc", "", 100, "7.1-scala12", "i3.xlarge", 0, ClusterState.terminated,
    "Terminated for test reasons"⟩

/-- The Running cluster returned after the start call in the same test
(part_000 lines 722–732). -/
def runningInfo : ClusterInfo :=
  ⟨"abc", "", 100, "7.1-scala12", "i3.xlarge", 0, ClusterState.running, ""⟩

/-- The desired shape of the update (HCL of part_000 lines 775–785; the
autotermination minutes default to 60 as in the expected edit body of
lines 681–691). -/
def terminatedUpdateSpec : Cluster := ⟨"", "", 100, "7.1-scala12", "i3.xlarge", 60⟩

/-- Desired libraries of the update, in HCL declaration order
(part_000 lines 779–785). -/
def terminatedUpdateDesired : List Library :=
  [Library.jar "dbfs://foo.jar", Library.egg "dbfs://bar.egg"]

/-- Libraries observed on the cluster before the update
(part_000 lines 692–714): the egg plus a pypi package to be removed. -/
def terminatedUpdateObserved : List LibraryStatus :=
  [⟨Library.egg "dbfs://bar.egg", LibInstallStatus.installed⟩,
   ⟨Library.pypi "requests" "", LibInstallStatus.installed⟩]

/-- Libraries observed after the install (the newLibs fixture,
part_000 lines 657–677). -/
def terminatedUpdateNewLibs : List LibraryStatus :=
  [⟨Library.jar "dbfs://foo.jar", LibInstallStatus.installed⟩,
   ⟨Library.egg "dbfs://bar.egg", LibInstallStatus.installed⟩]

/-- The remote environment of the terminated-cluster update test: gets
return Terminated, then Running (after start), then Terminated (after the
re-terminate); library statuses return the old set, then the new set. -/
def terminatedUpdateEnv : Env :=
  ⟨Except.ok "", none,
   [Except.ok terminatedInfo, Except.ok runningInfo, Except.ok terminatedInfo],
   [terminatedUpdateObserved, terminatedUpdateNewLibs]⟩

/-- Desired library sequence of TestResourceClusterCreate_WithLibraries in
HCL declaration order (part_000 lines 411–448): jar, egg, whl, pypi,
maven, cran. -/
def createWithLibrariesDeclaredOrder : List Library :=
  [Library.jar "dbfs://foo.jar",
   Library.egg "dbfs://bar.egg",
   Library.whl "dbfs://baz.whl",
   Library.pypi "seaborn==1.2.4" "",
   Library.maven "foo:bar:baz:0.1.0" "s3://maven-repo-in-s3/release"
     ["org.apache:flink:base"],
   Library.cran "rkeops" "internal"]

/-- The library list the same test expects in the body of the install call
(part_000 lines 304–338): pypi, whl, maven, egg, jar, cran — the set-hash
order of the terraform schema, not the declaration order. -/
def createWithLibrariesInstallCallOrder : List Library :=
  [Library.pypi "seaborn==1.2.4" "",
   Library.whl "dbfs://baz.whl",
   Library.maven "foo:bar:baz:0.1.0" "s3://maven-repo-in-s3/release"
     ["org.apache:flink:base"],
   Library.egg "dbfs://bar.egg",
   Library.jar "dbfs://foo.jar",
   Library.cran "rkeops" "internal"]

/-- The create spec of the end-to-end scenario (spec §8; claim values
numWorkers 100, sparkVersion 7.1, nodeType i3.xlarge, autotermination
15). -/
def endToEndCreateSpec : Cluster := ⟨"", "", 100, "7.1", "i3.xlarge", 15⟩

/-- The structured 400 error of TestResourceClusterCreate_Error,
TestResourceClusterRead_Error and TestResourceClusterUpdate_Error
(part_000 lines 460–465): code INVALID_REQUEST, message
"Internal error happened". -/
def internalError : ApiError := ⟨"INVALID_REQUEST", "Internal error happened", 400⟩

/-- The 404 rejection of TestResourceClusterRead_NotFound
(part_000 lines 542–547). -/
def notFoundError : ApiError := ⟨"NOT_FOUND", "Item not found", 404⟩

/-- Environment of TestResourceClusterCreate: the create call succeeds with
identifier abc and the first get reports Running
(part_000 lines 218–270). -/
def createEnv : Env :=
  ⟨Except.ok "abc", none, [Except.ok runningInfo], [[]]⟩

/-- Environment of TestResourceClusterDelete: delete accepted, the poll get
reports Terminated (part_000 lines 819–850). -/
def deleteEnv : Env :=
  ⟨Except.ok "", none, [Except.ok terminatedInfo], []⟩

/-- Environment whose first get fails with the structured 400 error
(TestResourceClusterRead_Error, TestResourceClusterUpdate_Error). -/
def getErrorEnv : Env :=
  ⟨Except.ok "", none, [Except.error internalError], []⟩

/-- Environment whose first get fails with NOT_FOUND
(TestResourceClusterRead_NotFound). -/
def getNotFoundEnv : Env :=
  ⟨Except.ok "", none, [Except.error notFoundError], []⟩

/-- Environment whose create call is rejected with the structured 400 error
(TestResourceClusterCreate_Error, part_000 lines 454–479). -/
def createErrorEnv : Env :=
  ⟨Except.error internalError, none, [], []⟩

/-- A desired spec observed only with status PENDING — the observed set of
the counterexample to the literal diff-partition claim. -/
def pendingObserved : List LibraryStatus :=
  [⟨Library.jar "dbfs://foo.jar", LibInstallStatus.pending⟩]

/-- The desired set of the same counterexample. -/
def pendingDesired : List Library := [Library.jar "dbfs://foo.jar"]

/-! ## Helper lemmas -/

theorem updateObs_of_not_get {s : Option ClusterState} {c : Call}
    (h : c.isGet = false) : updateObs s c = s := by
  cases c <;> first
    | rfl
    | simp [Call.isGet] at h

theorem obsAfter_append (s : Option ClusterState) (A B : List Call) :
    obsAfter s (A ++ B) = obsAfter (obsAfter s A) B := by
  simp [obsAfter, List.foldl_append]

theorem guardedWhileRunning_append (g : Call → Bool)
    (s : Option ClusterState) (A B : List Call) :
    guardedWhileRunning g s (A ++ B) =
      (guardedWhileRunning g s A && guardedWhileRunning g (obsAfter s A) B) := by
  induction A generalizing s with
  | nil => simp [guardedWhileRunning, obsAfter]
  | cons c rest ih =>
    simp only [List.cons_append, guardedWhileRunning, List.append_eq, ih,
      Bool.and_assoc]
    have hobs : obsAfter s (c :: rest) = obsAfter (updateObs s c) rest := rfl
    rw [hobs]

theorem guardedWhileRunning_of_no_guard {g : Call → Bool}
    {t : List Call} (h : ∀ c ∈ t, g c = false)
    (s : Option ClusterState) : guardedWhileRunning g s t = true := by
  induction t generalizing s with
  | nil => rfl
  | cons c rest ih =>
    simp only [guardedWhileRunning, h c (by simp), Bool.not_false,
      Bool.true_or, Bool.true_and]
    exact ih (fun d hd => h d (by simp [hd])) _

theorem countP_eq_zero_of_no_match {p : Call → Bool} {t : List Call}
    (h : ∀ c ∈ t, p c = false) : t.countP p = 0 := by
  rw [List.countP_eq_zero]
  intro a ha
  simp [h a ha]

theorem pollCluster_trace_all_get (cid : String) (pred : ClusterInfo → Bool)
    (nf : Bool) (rs : List (Except ApiError ClusterInfo)) :
    ∀ c ∈ (pollCluster cid pred nf rs).trace, c.isGet = true := by
  induction rs with
  | nil => simp [pollCluster]
  | cons r rest ih =>
    cases r with
    | error e =>
      by_cases h : (nf && e.isNotFound) = true <;>
        simp [pollCluster, h, Call.isGet]
    | ok info =>
      by_cases h : pred info = true
      · simp [pollCluster, h, Call.isGet]
      · simp only [pollCluster, h, Bool.false_eq_true, if_false]
        intro c hc
        simp only [List.mem_cons] at hc
        rcases hc with hc | hc
        · simp [hc, Call.isGet]
        · exact ih c hc

theorem pollRunning_obsAfter {cid : String}
    {rs : List (Except ApiError ClusterInfo)}
    (h : (pollCluster cid isRunningInfo false rs).result = .ok ())
    (s : Option ClusterState) :
    obsAfter s (pollCluster cid isRunningInfo false rs).trace =
      some ClusterState.running := by
  induction rs generalizing s with
  | nil => simp [pollCluster] at h
  | cons r rest ih =>
    cases r with
    | error e => simp [pollCluster] at h
    | ok info =>
      by_cases hp : isRunningInfo info = true
      · have hst : info.state = ClusterState.running := by
          simpa [isRunningInfo] using hp
        simp [pollCluster, hp, obsAfter, updateObs, hst]
      · simp only [pollCluster, hp, Bool.false_eq_true, if_false] at h ⊢
        rw [show (Call.getCall cid (Except.ok info) ::
            (pollCluster cid isRunningInfo false rest).trace) =
            [Call.getCall cid (Except.ok info)] ++
            (pollCluster cid isRunningInfo false rest).trace from rfl,
          obsAfter_append]
        exact ih h _

theorem reconcileUpdate_trace_eq (cid : String) (spec : Cluster)
    (desired : List Library) (env : Env) (info : ClusterInfo)
    (restGets : List (Except ApiError ClusterInfo))
    (hGet : env.getResps = .ok info :: restGets)
    (hDelta : ((installSet desired (env.libResps.headD [])).isEmpty &&
      (uninstallSet desired (env.libResps.headD [])).isEmpty) = false)
    (hNotRun : info.state ≠ ClusterState.running)
    (hStart : (pollCluster cid isRunningInfo false restGets).result = .ok ())
    (hLibs : (pollLibs cid env.libResps.tail).result = .ok ()) :
    (reconcileUpdate cid spec desired env).trace =
      Call.getCall cid (.ok info) ::
      (if shapeDiffers spec info then [Call.editCall (withID cid spec)]
        else []) ++
      Call.libStatusCall cid (env.libResps.headD []) ::
      Call.startCall cid ::
      (pollCluster cid isRunningInfo false restGets).trace ++
      (if (uninstallSet desired (env.libResps.headD [])).isEmpty then []
        else [Call.uninstallCall cid
          (uninstallSet desired (env.libResps.headD []))]) ++
      (if (installSet desired (env.libResps.headD [])).isEmpty then []
        else [Call.installCall cid
          (installSet desired (env.libResps.headD []))]) ++
      (pollLibs cid env.libResps.tail).trace ++
      Call.deleteCall cid ::
      (pollCluster cid isTerminatedInfo true
        (pollCluster cid isRunningInfo false restGets).rest).trace := by
  have hd : decide (info.state = ClusterState.running) = false := by
    simp [hNotRun]
  simp only [reconcileUpdate, hGet, hDelta, hd, hStart, hLibs,
    Bool.false_eq_true, if_false]

theorem Call.flags_of_get {c : Call} (h : c.isGet = true) :
    c.isStart = false ∧ c.isEdit = false ∧ c.isLibMutation = false ∧
      c.isDelete = false ∧ c.isCreate = false ∧ c.isInstall = false ∧
      c.isUninstall = false := by
  cases c <;> simp_all [Call.isGet, Call.isStart, Call.isEdit,
    Call.isLibMutation, Call.isDelete, Call.isCreate, Call.isInstall,
    Call.isUninstall]

theorem pollLibs_trace_flags (cid : String)
    (rs : List (List LibraryStatus)) :
    ∀ c ∈ (pollLibs cid rs).trace, c.isGet = false ∧ c.isStart = false ∧
      c.isEdit = false ∧ c.isLibMutation = false ∧ c.isDelete = false ∧
      c.isInstall = false ∧ c.isUninstall = false := by
  induction rs with
  | nil => simp [pollLibs]
  | cons r rest ih =>
    by_cases h : libsSettled r = true
    · simp [pollLibs, h, Call.isGet, Call.isStart, Call.isEdit,
        Call.isLibMutation, Call.isInstall, Call.isUninstall, Call.isDelete]
    · simp only [pollLibs, h, Bool.false_eq_true, if_false]
      intro c hc
      simp only [List.mem_cons] at hc
      rcases hc with hc | hc
      · simp [hc, Call.isGet, Call.isStart, Call.isEdit, Call.isLibMutation,
          Call.isInstall, Call.isUninstall, Call.isDelete]
      · exact ih c hc

theorem obsAfter_of_no_get {t : List Call} (h : ∀ c ∈ t, c.isGet = false)
    (s : Option ClusterState) : obsAfter s t = s := by
  induction t generalizing s with
  | nil => rfl
  | cons c rest ih =>
    have hs : obsAfter s (c :: rest) = obsAfter (updateObs s c) rest := rfl
    rw [hs, updateObs_of_not_get (h c (by simp))]
    exact ih (fun d hd => h d (by simp [hd])) s

theorem guardedWhileRunning_of_no_get {g : Call → Bool} {t : List Call}
    (h : ∀ c ∈ t, c.isGet = false) :
    guardedWhileRunning g (some ClusterState.running) t = true := by
  induction t with
  | nil => rfl
  | cons c rest ih =>
    simp only [guardedWhileRunning, updateObs_of_not_get (h c (by simp))]
    simp [ih (fun d hd => h d (by simp [hd]))]

/-! ## Claim theorems -/

/-- C6: when the remote create call fails with a structured error,
Reconcile returns an APIError carrying the remote message verbatim, no
cluster identifier is recorded, and no further call is issued. -/
theorem c6_create_error_verbatim (spec : Cluster) (desired : List Library)
    (env : Env) (e : ApiError) (hC : env.createResp = .error e) :
    (reconcileCreate spec desired env).result = .error (RecErr.api e) ∧
    (reconcileCreate spec desired env).recordedID = "" ∧
    (reconcileCreate spec desired env).trace = [Call.createCall spec] := by
  simp [reconcileCreate, hC]

/-- Witness for C6 at the input of TestResourceClusterCreate_Error: the
structured 400 with message "Internal error happened" is surfaced verbatim
and the recorded identifier stays empty. -/
theorem c6_create_error_verbatim_witness :
    (reconcileCreate endToEndCreateSpec [] createErrorEnv).result =
      .error (RecErr.api internalError) ∧
    (reconcileCreate endToEndCreateSpec [] createErrorEnv).recordedID = "" ∧
    (reconcileCreate endToEndCreateSpec [] createErrorEnv).trace =
      [Call.createCall endToEndCreateSpec] :=
  c6_create_error_verbatim endToEndCreateSpec [] createErrorEnv
    internalError rfl

/-- C9: a read or update whose get fails with a non-NotFound APIError
surfaces the error and leaves the recorded cluster identifier unchanged. -/
theorem c9_error_preserves_id (cid : String) (env : Env) (e : ApiError)
    (rest : List (Except ApiError ClusterInfo))
    (hGet : env.getResps = .error e :: rest)
    (hNF : e.isNotFound = false) :
    ((reconcileRead cid env).recordedID = cid ∧
      (reconcileRead cid env).result = .error (RecErr.api e)) ∧
    ∀ spec desired,
      (reconcileUpdate cid spec desired env).recordedID = cid ∧
      (reconcileUpdate cid spec desired env).result = .error (RecErr.api e) := by
  constructor
  · simp [reconcileRead, hGet, hNF]
  · intro spec desired
    simp [reconcileUpdate, hGet]

/-- Witness for C9 at the inputs of TestResourceClusterRead_Error and
TestResourceClusterUpdate_Error: identifier abc is kept on the 400. -/
theorem c9_error_preserves_id_witness :
    (reconcileRead "abc" getErrorEnv).recordedID = "abc" ∧
    (reconcileUpdate "abc" terminatedUpdateSpec terminatedUpdateDesired
      getErrorEnv).recordedID = "abc" :=
  ⟨(c9_error_preserves_id "abc" getErrorEnv internalError [] rfl
      (by decide)).1.1,
   ((c9_error_preserves_id "abc" getErrorEnv internalError [] rfl
      (by decide)).2 terminatedUpdateSpec terminatedUpdateDesired).1⟩

/-- C10: a read whose get fails with NotFound reports the cluster as
removed: success, with the recorded identifier cleared. -/
theorem c10_read_not_found_clears_id (cid : String) (env : Env)
    (e : ApiError) (rest : List (Except ApiError ClusterInfo))
    (hGet : env.getResps = .error e :: rest)
    (hNF : e.isNotFound = true) :
    (reconcileRead cid env).result = .ok () ∧
    (reconcileRead cid env).recordedID = "" := by
  simp [reconcileRead, hGet, hNF]

/-- Witness for C10 at the input of TestResourceClusterRead_NotFound. -/
theorem c10_read_not_found_clears_id_witness :
    (reconcileRead "abc" getNotFoundEnv).result = .ok () ∧
    (reconcileRead "abc" getNotFoundEnv).recordedID = "" :=
  c10_read_not_found_clears_id "abc" getNotFoundEnv notFoundError [] rfl
    (by decide)

/-- C7: a delete issues the delete call, polls (gets only) until the
observed phase is Terminated, then issues the permanent-delete call, and
returns success when all steps succeed. -/
theorem c7_delete_sequence (cid : String) (env : Env)
    (hDel : env.deleteResp = none)
    (hPoll : (pollCluster cid isTerminatedInfo true env.getResps).result =
      .ok ()) :
    (reconcileDelete cid env).result = .ok () ∧
    (reconcileDelete cid env).trace =
      Call.deleteCall cid ::
        (pollCluster cid isTerminatedInfo true env.getResps).trace ++
        [Call.permanentDeleteCall cid] ∧
    ∀ c ∈ (pollCluster cid isTerminatedInfo true env.getResps).trace,
      c.isGet = true := by
  refine ⟨?_, ?_, pollCluster_trace_all_get _ _ _ _⟩ <;>
    simp [reconcileDelete, hDel, hPoll]

/-- Witness for C7 at the input of TestResourceClusterDelete: delete, one
get observing Terminated, permanent-delete. -/
theorem c7_delete_sequence_witness :
    (reconcileDelete "abc" deleteEnv).result = .ok () ∧
    (reconcileDelete "abc" deleteEnv).trace =
      Call.deleteCall "abc" ::
        (pollCluster "abc" isTerminatedInfo true deleteEnv.getResps).trace ++
        [Call.permanentDeleteCall "abc"] ∧
    ∀ c ∈ (pollCluster "abc" isTerminatedInfo true deleteEnv.getResps).trace,
      c.isGet = true :=
  c7_delete_sequence "abc" deleteEnv rfl (by decide)

/-- C3 (counterexample): in TestResourceClusterCreate_WithLibraries the
library list of the install call is a permutation of the declared sequence
but not in declaration order, even though the Differ returns its input
unchanged against an empty observed set. -/
theorem c3_declaration_order_counterexample :
    installSet createWithLibrariesInstallCallOrder [] =
      createWithLibrariesInstallCallOrder ∧
    createWithLibrariesInstallCallOrder ≠ createWithLibrariesDeclaredOrder ∧
    createWithLibrariesInstallCallOrder.Perm
      createWithLibrariesDeclaredOrder := by
  decide

/-- C3 (amended): the Differ's install-set preserves the order of the
desired sequence it is given — it is a sublist of it; the declaration
order itself is lost upstream, in the unordered library set of the
resource schema. -/
theorem c3_install_set_preserves_input_order (desired : List Library)
    (observed : List LibraryStatus) :
    (installSet desired observed).Sublist desired :=
  List.filter_sublist desired

/-- C4 (counterexample): a desired spec observed with status PENDING is not
"already installed", yet the Differ does not put it in the install-set —
the literal partition claim fails. -/
theorem c4_not_installed_counterexample :
    ¬ installedIn pendingObserved (Library.jar "dbfs://foo.jar") ∧
    Library.jar "dbfs://foo.jar" ∈ pendingDesired ∧
    Library.jar "dbfs://foo.jar" ∉ installSet pendingDesired pendingObserved := by
  decide

/-- C4 (amended): the Differ installs exactly the desired specs that are
not observed with a non-failed status; it uninstalls every observed spec
absent from the desired set unless already uninstall-on-restart; desired
specs already installed appear in neither set. -/
theorem c4_diff_partition (desired : List Library)
    (observed : List LibraryStatus) :
    (∀ d, d ∈ installSet desired observed ↔
      d ∈ desired ∧ ∀ o ∈ observed, o.library = d →
        o.status = LibInstallStatus.failed) ∧
    (∀ o ∈ observed, o.library ∉ desired →
      o.status ≠ LibInstallStatus.uninstallOnRestart →
      o.library ∈ uninstallSet desired observed) ∧
    (∀ d ∈ desired, installedIn observed d →
      d ∉ installSet desired observed ∧
        d ∉ uninstallSet desired observed) := by
  refine ⟨?_, ?_, ?_⟩
  · intro d
    simp [installSet, List.mem_filter]
  · intro o ho h1 h2
    simp only [uninstallSet, List.mem_map]
    exact ⟨o, by simp [List.mem_filter, ho, h1, h2], rfl⟩
  · intro d hd hinst
    constructor
    · simp only [installSet, List.mem_filter, decide_eq_true_eq]
      rintro ⟨-, hall⟩
      obtain ⟨o, ho, holib, hostat⟩ := hinst
      have hfail := hall o ho holib
      rw [hostat] at hfail
      cases hfail
    · simp only [uninstallSet, List.mem_map]
      rintro ⟨o, hof, holib⟩
      rw [List.mem_filter] at hof
      have hcond := hof.2
      simp only [decide_eq_true_eq] at hcond
      exact hcond.1 (by rw [holib]; exact hd)

/-- Witness for C4 at the observed/desired sets of the terminated-cluster
update test: the jar goes to the install-set, the stray pypi package to
the uninstall-set, and the already-installed egg to neither. -/
theorem c4_diff_partition_witness :
    Library.jar "dbfs://foo.jar" ∈
      installSet terminatedUpdateDesired terminatedUpdateObserved ∧
    Library.pypi "requests" "" ∈
      uninstallSet terminatedUpdateDesired terminatedUpdateObserved ∧
    Library.egg "dbfs://bar.egg" ∉
      installSet terminatedUpdateDesired terminatedUpdateObserved := by
  obtain ⟨h1, h2, h3⟩ :=
    c4_diff_partition terminatedUpdateDesired terminatedUpdateObserved
  refine ⟨(h1 _).mpr (by decide), ?_, ?_⟩
  · exact h2 ⟨Library.pypi "requests" "", LibInstallStatus.installed⟩
      (by decide) (by decide) (by decide)
  · exact (h3 (Library.egg "dbfs://bar.egg") (by decide) (by decide)).1

/-- C8: creating the end-to-end scenario cluster with an empty desired
library set issues exactly one create call, then polls (gets only) until
the observed phase is Running, performs no install or uninstall call, and
returns success recording the identifier assigned by the create call. -/
theorem c8_create_end_to_end (cid : String) (env : Env)
    (hC : env.createResp = .ok cid)
    (hPoll : (pollCluster cid isRunningInfo false env.getResps).result =
      .ok ()) :
    (reconcileCreate endToEndCreateSpec [] env).result = .ok () ∧
    (reconcileCreate endToEndCreateSpec [] env).recordedID = cid ∧
    (reconcileCreate endToEndCreateSpec [] env).trace =
      Call.createCall endToEndCreateSpec ::
        (pollCluster cid isRunningInfo false env.getResps).trace ∧
    (reconcileCreate endToEndCreateSpec [] env).trace.countP
      Call.isCreate = 1 ∧
    (reconcileCreate endToEndCreateSpec [] env).trace.countP
      Call.isLibMutation = 0 ∧
    obsAfter none (reconcileCreate endToEndCreateSpec [] env).trace =
      some ClusterState.running := by
  have htr : (reconcileCreate endToEndCreateSpec [] env).trace =
      Call.createCall endToEndCreateSpec ::
        (pollCluster cid isRunningInfo false env.getResps).trace := by
    simp [reconcileCreate, hC, hPoll]
  have hres : (reconcileCreate endToEndCreateSpec [] env).result = .ok () := by
    simp [reconcileCreate, hC, hPoll]
  have hid : (reconcileCreate endToEndCreateSpec [] env).recordedID = cid := by
    simp [reconcileCreate, hC, hPoll]
  have hget := pollCluster_trace_all_get cid isRunningInfo false env.getResps
  refine ⟨hres, hid, htr, ?_, ?_, ?_⟩
  · rw [htr, List.countP_cons]
    have h0 : (pollCluster cid isRunningInfo false env.getResps).trace.countP
        Call.isCreate = 0 :=
      countP_eq_zero_of_no_match fun c hc =>
        (Call.flags_of_get (hget c hc)).2.2.2.2.1
    simp [h0, Call.isCreate]
  · rw [htr, List.countP_cons]
    have h0 : (pollCluster cid isRunningInfo false env.getResps).trace.countP
        Call.isLibMutation = 0 :=
      countP_eq_zero_of_no_match fun c hc =>
        (Call.flags_of_get (hget c hc)).2.2.1
    simp [h0, Call.isLibMutation, Call.isInstall, Call.isUninstall]
  · rw [htr]
    have hstep : obsAfter none (Call.createCall endToEndCreateSpec ::
        (pollCluster cid isRunningInfo false env.getResps).trace) =
        obsAfter none
          (pollCluster cid isRunningInfo false env.getResps).trace := rfl
    rw [hstep]
    exact pollRunning_obsAfter hPoll none

/-- Witness for C8 at the input of TestResourceClusterCreate: identifier
abc, one get observing Running, no library calls. -/
theorem c8_create_end_to_end_witness :
    (reconcileCreate endToEndCreateSpec [] createEnv).result = .ok () ∧
    (reconcileCreate endToEndCreateSpec [] createEnv).recordedID = "abc" ∧
    (reconcileCreate endToEndCreateSpec [] createEnv).trace.countP
      Call.isLibMutation = 0 := by
  obtain ⟨h1, h2, h3, h4, h5, h6⟩ :=
    c8_create_end_to_end "abc" createEnv rfl (by decide)
  exact ⟨h1, h2, h5⟩

/-- C5: when the library diff of an update has both a non-empty
uninstall-set and a non-empty install-set, the uninstall call is issued
immediately before the install call, and each is issued exactly once. -/
theorem c5_uninstall_before_install (cid : String) (spec : Cluster)
    (desired : List Library) (env : Env) (info : ClusterInfo)
    (restGets : List (Except ApiError ClusterInfo))
    (hGet : env.getResps = .ok info :: restGets)
    (hU : uninstallSet desired (env.libResps.headD []) ≠ [])
    (hI : installSet desired (env.libResps.headD []) ≠ [])
    (hRun : info.state = ClusterState.running ∨
      (pollCluster cid isRunningInfo false restGets).result = .ok ()) :
    ∃ t₁ t₂, (reconcileUpdate cid spec desired env).trace =
      t₁ ++
        Call.uninstallCall cid (uninstallSet desired (env.libResps.headD []))
        :: Call.installCall cid (installSet desired (env.libResps.headD []))
        :: t₂ ∧
      (reconcileUpdate cid spec desired env).trace.countP
        Call.isUninstall = 1 ∧
      (reconcileUpdate cid spec desired env).trace.countP
        Call.isInstall = 1 := by
  have hU' : (uninstallSet desired (env.libResps.headD [])).isEmpty = false := by
    cases hcase : (uninstallSet desired (env.libResps.headD [])).isEmpty
    · rfl
    · exact absurd (List.isEmpty_iff.mp hcase) hU
  have hI' : (installSet desired (env.libResps.headD [])).isEmpty = false := by
    cases hcase : (installSet desired (env.libResps.headD [])).isEmpty
    · rfl
    · exact absurd (List.isEmpty_iff.mp hcase) hI
  have hDelta : ((installSet desired (env.libResps.headD [])).isEmpty &&
      (uninstallSet desired (env.libResps.headD [])).isEmpty) = false := by
    rw [hI', Bool.false_and]
  have hqU : (pollLibs cid env.libResps.tail).trace.countP
      Call.isUninstall = 0 :=
    countP_eq_zero_of_no_match fun c hc =>
      (pollLibs_trace_flags cid _ c hc).2.2.2.2.2.2
  have hqI : (pollLibs cid env.libResps.tail).trace.countP
      Call.isInstall = 0 :=
    countP_eq_zero_of_no_match fun c hc =>
      (pollLibs_trace_flags cid _ c hc).2.2.2.2.2.1
  by_cases hrs : info.state = ClusterState.running
  · have hd : decide (info.state = ClusterState.running) = true := by
      simp [hrs]
    have htr : (reconcileUpdate cid spec desired env).trace =
        Call.getCall cid (.ok info) ::
        (if shapeDiffers spec info then [Call.editCall (withID cid spec)]
          else []) ++
        Call.libStatusCall cid (env.libResps.headD []) ::
        Call.uninstallCall cid (uninstallSet desired (env.libResps.headD []))
        :: Call.installCall cid (installSet desired (env.libResps.headD []))
        :: (pollLibs cid env.libResps.tail).trace := by
      simp only [reconcileUpdate, hGet, hDelta, hd, hU', hI',
        Bool.false_eq_true, if_false, if_true, eq_self_iff_true]
      simp [List.append_assoc]
    refine ⟨Call.getCall cid (.ok info) ::
      (if shapeDiffers spec info then [Call.editCall (withID cid spec)]
        else []) ++ [Call.libStatusCall cid (env.libResps.headD [])],
      (pollLibs cid env.libResps.tail).trace, ?_, ?_, ?_⟩
    · rw [htr]
      by_cases hs : shapeDiffers spec info = true <;> simp [hs]
    · rw [htr]
      by_cases hs : shapeDiffers spec info = true <;>
        simp [hs, List.countP_cons, List.countP_append, hqU]
    · rw [htr]
      by_cases hs : shapeDiffers spec info = true <;>
        simp [hs, List.countP_cons, List.countP_append, hqI]
  · have hd : decide (info.state = ClusterState.running) = false := by
      simp [hrs]
    have hStart : (pollCluster cid isRunningInfo false restGets).result =
        .ok () := hRun.resolve_left hrs
    have hpt := pollCluster_trace_all_get cid isRunningInfo false restGets
    have hpU : (pollCluster cid isRunningInfo false restGets).trace.countP
        Call.isUninstall = 0 :=
      countP_eq_zero_of_no_match fun c hc =>
        (Call.flags_of_get (hpt c hc)).2.2.2.2.2.2
    have hpI : (pollCluster cid isRunningInfo false restGets).trace.countP
        Call.isInstall = 0 :=
      countP_eq_zero_of_no_match fun c hc =>
        (Call.flags_of_get (hpt c hc)).2.2.2.2.2.1
    have hrt := pollCluster_trace_all_get cid isTerminatedInfo true
      (pollCluster cid isRunningInfo false restGets).rest
    have hrU : (pollCluster cid isTerminatedInfo true
        (pollCluster cid isRunningInfo false restGets).rest).trace.countP
        Call.isUninstall = 0 :=
      countP_eq_zero_of_no_match fun c hc =>
        (Call.flags_of_get (hrt c hc)).2.2.2.2.2.2
    have hrI : (pollCluster cid isTerminatedInfo true
        (pollCluster cid isRunningInfo false restGets).rest).trace.countP
        Call.isInstall = 0 :=
      countP_eq_zero_of_no_match fun c hc =>
        (Call.flags_of_get (hrt c hc)).2.2.2.2.2.1
    cases hq : (pollLibs cid env.libResps.tail).result with
    | error err =>
      have htr : (reconcileUpdate cid spec desired env).trace =
          Call.getCall cid (.ok info) ::
          (if shapeDiffers spec info then [Call.editCall (withID cid spec)]
            else []) ++
          Call.libStatusCall cid (env.libResps.headD []) ::
          Call.startCall cid ::
          ((pollCluster cid isRunningInfo false restGets).trace ++
          Call.uninstallCall cid
            (uninstallSet desired (env.libResps.headD [])) ::
          Call.installCall cid (installSet desired (env.libResps.headD []))
          :: (pollLibs cid env.libResps.tail).trace) := by
        simp only [reconcileUpdate, hGet, hDelta, hd, hU', hI', hStart, hq,
          Bool.false_eq_true, if_false]
        simp [List.append_assoc]
      refine ⟨Call.getCall cid (.ok info) ::
        (if shapeDiffers spec info then [Call.editCall (withID cid spec)]
          else []) ++
        Call.libStatusCall cid (env.libResps.headD []) ::
        Call.startCall cid ::
        (pollCluster cid isRunningInfo false restGets).trace,
        (pollLibs cid env.libResps.tail).trace, ?_, ?_, ?_⟩
      · rw [htr]
        by_cases hs : shapeDiffers spec info = true <;> simp [hs]
      · rw [htr]
        by_cases hs : shapeDiffers spec info = true <;>
          simp [hs, List.countP_cons, List.countP_append, hqU, hpU]
      · rw [htr]
        by_cases hs : shapeDiffers spec info = true <;>
          simp [hs, List.countP_cons, List.countP_append, hqI, hpI]
    | ok u =>
      cases u
      have htr : (reconcileUpdate cid spec desired env).trace =
          Call.getCall cid (.ok info) ::
          (if shapeDiffers spec info then [Call.editCall (withID cid spec)]
            else []) ++
          Call.libStatusCall cid (env.libResps.headD []) ::
          Call.startCall cid ::
          ((pollCluster cid isRunningInfo false restGets).trace ++
          Call.uninstallCall cid
            (uninstallSet desired (env.libResps.headD [])) ::
          Call.installCall cid (installSet desired (env.libResps.headD []))
          :: ((pollLibs cid env.libResps.tail).trace ++
            Call.deleteCall cid ::
            (pollCluster cid isTerminatedInfo true
              (pollCluster cid isRunningInfo false restGets).rest).trace)) := by
        simp only [reconcileUpdate, hGet, hDelta, hd, hU', hI', hStart, hq,
          Bool.false_eq_true, if_false]
        simp [List.append_assoc]
      refine ⟨Call.getCall cid (.ok info) ::
        (if shapeDiffers spec info then [Call.editCall (withID cid spec)]
          else []) ++
        Call.libStatusCall cid (env.libResps.headD []) ::
        Call.startCall cid ::
        (pollCluster cid isRunningInfo false restGets).trace,
        (pollLibs cid env.libResps.tail).trace ++
          Call.deleteCall cid ::
          (pollCluster cid isTerminatedInfo true
            (pollCluster cid isRunningInfo false restGets).rest).trace,
        ?_, ?_, ?_⟩
      · rw [htr]
        by_cases hs : shapeDiffers spec info = true <;> simp [hs]
      · rw [htr]
        by_cases hs : shapeDiffers spec info = true <;>
          simp [hs, List.countP_cons, List.countP_append, hqU, hpU, hrU]
      · rw [htr]
        by_cases hs : shapeDiffers spec info = true <;>
          simp [hs, List.countP_cons, List.countP_append, hqI, hpI, hrI]

/-- Witness for C5 at the terminated-cluster update scenario: the pypi
package is uninstalled immediately before the jar is installed. -/
theorem c5_uninstall_before_install_witness :
    ∃ t₁ t₂, (reconcileUpdate "abc" terminatedUpdateSpec
      terminatedUpdateDesired terminatedUpdateEnv).trace =
      t₁ ++
        Call.uninstallCall "abc" (uninstallSet terminatedUpdateDesired
          (terminatedUpdateEnv.libResps.headD []))
        :: Call.installCall "abc" (installSet terminatedUpdateDesired
          (terminatedUpdateEnv.libResps.headD []))
        :: t₂ ∧
      (reconcileUpdate "abc" terminatedUpdateSpec terminatedUpdateDesired
        terminatedUpdateEnv).trace.countP Call.isUninstall = 1 ∧
      (reconcileUpdate "abc" terminatedUpdateSpec terminatedUpdateDesired
        terminatedUpdateEnv).trace.countP Call.isInstall = 1 :=
  c5_uninstall_before_install "abc" terminatedUpdateSpec
    terminatedUpdateDesired terminatedUpdateEnv terminatedInfo
    [Except.ok runningInfo, Except.ok terminatedInfo] rfl
    (by decide) (by decide) (Or.inr (by decide))

/-- C1 (counterexample): at the scenario of
TestResourceClusterUpdate_LibrariesChangeOnTerminatedCluster — Phase
Terminated, shape change required — the update trace has no start call
before its edit call, and the edit is issued while the last observed phase
is Terminated, so the claimed start-before-edit and
nothing-but-Running-permits-edit properties fail. -/
theorem c1_start_before_edit_counterexample :
    terminatedInfo.state = ClusterState.terminated ∧
    shapeDiffers terminatedUpdateSpec terminatedInfo = true ∧
    ¬ (startBeforeEveryEdit (reconcileUpdate "abc" terminatedUpdateSpec
        terminatedUpdateDesired terminatedUpdateEnv).trace ∧
      guardedWhileRunning Call.isRunningOnly none
        (reconcileUpdate "abc" terminatedUpdateSpec terminatedUpdateDesired
          terminatedUpdateEnv).trace = true) := by
  decide

/-- C1 (amended): on a Terminated cluster needing a shape change and a
library change, the update issues the edit first — before any start call
and while the last observed phase is still Terminated — then exactly one
start call, and only library install/uninstall calls (never the edit) wait
for the Running phase. -/
theorem c1_update_edit_before_start (cid : String) (spec : Cluster)
    (desired : List Library) (env : Env) (info : ClusterInfo)
    (restGets : List (Except ApiError ClusterInfo))
    (hGet : env.getResps = .ok info :: restGets)
    (hPhase : info.state = ClusterState.terminated)
    (hShape : shapeDiffers spec info = true)
    (hDelta : ((installSet desired (env.libResps.headD [])).isEmpty &&
      (uninstallSet desired (env.libResps.headD [])).isEmpty) = false)
    (hStart : (pollCluster cid isRunningInfo false restGets).result = .ok ())
    (hLibs : (pollLibs cid env.libResps.tail).result = .ok ()) :
    ∃ t₂, (reconcileUpdate cid spec desired env).trace =
      [Call.getCall cid (.ok info), Call.editCall (withID cid spec),
        Call.libStatusCall cid (env.libResps.headD [])] ++
        Call.startCall cid :: t₂ ∧
      t₂.countP Call.isStart = 0 ∧ t₂.countP Call.isEdit = 0 ∧
      (reconcileUpdate cid spec desired env).trace.countP Call.isStart = 1 ∧
      (reconcileUpdate cid spec desired env).trace.countP Call.isEdit = 1 ∧
      obsAfter none [Call.getCall cid (.ok info),
        Call.editCall (withID cid spec),
        Call.libStatusCall cid (env.libResps.headD [])] =
        some ClusterState.terminated ∧
      guardedWhileRunning Call.isLibMutation none
        (reconcileUpdate cid spec desired env).trace = true := by
  have hNotRun : info.state ≠ ClusterState.running := by
    rw [hPhase]
    intro h
    cases h
  have htr := reconcileUpdate_trace_eq cid spec desired env info restGets
    hGet hDelta hNotRun hStart hLibs
  rw [hShape] at htr
  simp only [if_true] at htr
  have hptG := pollCluster_trace_all_get cid isRunningInfo false restGets
  have hrtG := pollCluster_trace_all_get cid isTerminatedInfo true
    (pollCluster cid isRunningInfo false restGets).rest
  have hqF := pollLibs_trace_flags cid env.libResps.tail
  have hpS : (pollCluster cid isRunningInfo false restGets).trace.countP
      Call.isStart = 0 :=
    countP_eq_zero_of_no_match fun c hc => (Call.flags_of_get (hptG c hc)).1
  have hpE : (pollCluster cid isRunningInfo false restGets).trace.countP
      Call.isEdit = 0 :=
    countP_eq_zero_of_no_match fun c hc => (Call.flags_of_get (hptG c hc)).2.1
  have hrS : (pollCluster cid isTerminatedInfo true
      (pollCluster cid isRunningInfo false restGets).rest).trace.countP
      Call.isStart = 0 :=
    countP_eq_zero_of_no_match fun c hc => (Call.flags_of_get (hrtG c hc)).1
  have hrE : (pollCluster cid isTerminatedInfo true
      (pollCluster cid isRunningInfo false restGets).rest).trace.countP
      Call.isEdit = 0 :=
    countP_eq_zero_of_no_match fun c hc => (Call.flags_of_get (hrtG c hc)).2.1
  have hqS : (pollLibs cid env.libResps.tail).trace.countP Call.isStart = 0 :=
    countP_eq_zero_of_no_match fun c hc => (hqF c hc).2.1
  have hqE : (pollLibs cid env.libResps.tail).trace.countP Call.isEdit = 0 :=
    countP_eq_zero_of_no_match fun c hc => (hqF c hc).2.2.1
  refine ⟨(pollCluster cid isRunningInfo false restGets).trace ++
    (if (uninstallSet desired (env.libResps.headD [])).isEmpty then []
      else [Call.uninstallCall cid
        (uninstallSet desired (env.libResps.headD []))]) ++
    (if (installSet desired (env.libResps.headD [])).isEmpty then []
      else [Call.installCall cid
        (installSet desired (env.libResps.headD []))]) ++
    (pollLibs cid env.libResps.tail).trace ++
    Call.deleteCall cid ::
    (pollCluster cid isTerminatedInfo true
      (pollCluster cid isRunningInfo false restGets).rest).trace,
    ?_, ?_, ?_, ?_, ?_, ?_, ?_⟩
  · rw [htr]
    simp [List.append_assoc]
  · by_cases hUe : (uninstallSet desired (env.libResps.headD [])).isEmpty <;>
      by_cases hIe : (installSet desired (env.libResps.headD [])).isEmpty <;>
      simp [hUe, hIe, List.countP_append, List.countP_cons, hpS, hqS, hrS]
  · by_cases hUe : (uninstallSet desired (env.libResps.headD [])).isEmpty <;>
      by_cases hIe : (installSet desired (env.libResps.headD [])).isEmpty <;>
      simp [hUe, hIe, List.countP_append, List.countP_cons, hpE, hqE, hrE]
  · rw [htr]
    by_cases hUe : (uninstallSet desired (env.libResps.headD [])).isEmpty <;>
      by_cases hIe : (installSet desired (env.libResps.headD [])).isEmpty <;>
      simp [hUe, hIe, List.countP_append, List.countP_cons, hpS, hqS, hrS]
  · rw [htr]
    by_cases hUe : (uninstallSet desired (env.libResps.headD [])).isEmpty <;>
      by_cases hIe : (installSet desired (env.libResps.headD [])).isEmpty <;>
      simp [hUe, hIe, List.countP_append, List.countP_cons, hpE, hqE, hrE]
  · simp [obsAfter, updateObs, hPhase]
  · rw [htr]
    have hshape : Call.getCall cid (Except.ok info) ::
        [Call.editCall (withID cid spec)] ++
        Call.libStatusCall cid (env.libResps.headD []) ::
        Call.startCall cid ::
        (pollCluster cid isRunningInfo false restGets).trace ++
        (if (uninstallSet desired (env.libResps.headD [])).isEmpty then []
          else [Call.uninstallCall cid
            (uninstallSet desired (env.libResps.headD []))]) ++
        (if (installSet desired (env.libResps.headD [])).isEmpty then []
          else [Call.installCall cid
            (installSet desired (env.libResps.headD []))]) ++
        (pollLibs cid env.libResps.tail).trace ++
        Call.deleteCall cid ::
        (pollCluster cid isTerminatedInfo true
          (pollCluster cid isRunningInfo false restGets).rest).trace =
        ([Call.getCall cid (Except.ok info),
          Call.editCall (withID cid spec),
          Call.libStatusCall cid (env.libResps.headD []),
          Call.startCall cid] ++
          (pollCluster cid isRunningInfo false restGets).trace) ++
        (((if (uninstallSet desired (env.libResps.headD [])).isEmpty then []
          else [Call.uninstallCall cid
            (uninstallSet desired (env.libResps.headD []))]) ++
          (if (installSet desired (env.libResps.headD [])).isEmpty then []
            else [Call.installCall cid
              (installSet desired (env.libResps.headD []))])) ++
          ((pollLibs cid env.libResps.tail).trace ++
            Call.deleteCall cid ::
            (pollCluster cid isTerminatedInfo true
              (pollCluster cid isRunningInfo false restGets).rest).trace)) := by
      simp [List.append_assoc]
    rw [hshape, guardedWhileRunning_append, guardedWhileRunning_append]
    have hA4 : guardedWhileRunning Call.isLibMutation none
        [Call.getCall cid (Except.ok info),
          Call.editCall (withID cid spec),
          Call.libStatusCall cid (env.libResps.headD []),
          Call.startCall cid] = true := by
      refine guardedWhileRunning_of_no_guard (fun c hc => ?_) none
      fin_cases hc <;> simp [Call.isLibMutation]
    have hPt : ∀ s, guardedWhileRunning Call.isLibMutation s
        (pollCluster cid isRunningInfo false restGets).trace = true :=
      fun s => guardedWhileRunning_of_no_guard
        (fun c hc => (Call.flags_of_get (hptG c hc)).2.2.1) s
    have hAobs : obsAfter none
        ([Call.getCall cid (Except.ok info),
          Call.editCall (withID cid spec),
          Call.libStatusCall cid (env.libResps.headD []),
          Call.startCall cid] ++
          (pollCluster cid isRunningInfo false restGets).trace) =
        some ClusterState.running := by
      rw [obsAfter_append]
      exact pollRunning_obsAfter hStart _
    have hMguard : guardedWhileRunning Call.isLibMutation
        (some ClusterState.running)
        ((if (uninstallSet desired (env.libResps.headD [])).isEmpty then []
          else [Call.uninstallCall cid
            (uninstallSet desired (env.libResps.headD []))]) ++
          (if (installSet desired (env.libResps.headD [])).isEmpty then []
            else [Call.installCall cid
              (installSet desired (env.libResps.headD []))])) = true := by
      refine guardedWhileRunning_of_no_get fun c hc => ?_
      rw [List.mem_append] at hc
      rcases hc with hc | hc <;>
        [skip; skip] <;>
        · rcases Bool.eq_false_or_eq_true
            ((uninstallSet desired (env.libResps.headD [])).isEmpty) with
            h | h <;>
          rcases Bool.eq_false_or_eq_true
            ((installSet desired (env.libResps.headD [])).isEmpty) with
            h2 | h2 <;>
          simp [h, h2] at hc <;>
          simp [hc]
    have hMobs : obsAfter (some ClusterState.running)
        ((if (uninstallSet desired (env.libResps.headD [])).isEmpty then []
          else [Call.uninstallCall cid
            (uninstallSet desired (env.libResps.headD []))]) ++
          (if (installSet desired (env.libResps.headD [])).isEmpty then []
            else [Call.installCall cid
              (installSet desired (env.libResps.headD []))])) =
        some ClusterState.running := by
      refine obsAfter_of_no_get (fun c hc => ?_) _
      rw [List.mem_append] at hc
      rcases hc with hc | hc <;>
        · rcases Bool.eq_false_or_eq_true
            ((uninstallSet desired (env.libResps.headD [])).isEmpty) with
            h | h <;>
          rcases Bool.eq_false_or_eq_true
            ((installSet desired (env.libResps.headD [])).isEmpty) with
            h2 | h2 <;>
          simp [h, h2] at hc <;>
          simp [hc]
    have hRguard : ∀ s, guardedWhileRunning Call.isLibMutation s
        ((pollLibs cid env.libResps.tail).trace ++
          Call.deleteCall cid ::
          (pollCluster cid isTerminatedInfo true
            (pollCluster cid isRunningInfo false restGets).rest).trace) =
        true := by
      intro s
      refine guardedWhileRunning_of_no_guard (fun c hc => ?_) s
      rw [List.mem_append] at hc
      rcases hc with hc | hc
      · exact (hqF c hc).2.2.2.1
      · rw [List.mem_cons] at hc
        rcases hc with hc | hc
        · simp [hc, Call.isLibMutation]
        · exact (Call.flags_of_get (hrtG c hc)).2.2.1
    rw [hAobs, guardedWhileRunning_append, hMguard, hMobs, hRguard, hA4, hPt]
    rfl

/-- Witness for C1 (amended) at the scenario of the terminated-cluster
update test. -/
theorem c1_update_edit_before_start_witness :
    ∃ t₂, (reconcileUpdate "abc" terminatedUpdateSpec terminatedUpdateDesired
      terminatedUpdateEnv).trace =
      [Call.getCall "abc" (.ok terminatedInfo),
        Call.editCall (withID "abc" terminatedUpdateSpec),
        Call.libStatusCall "abc" (terminatedUpdateEnv.libResps.headD [])] ++
        Call.startCall "abc" :: t₂ ∧
      t₂.countP Call.isStart = 0 ∧ t₂.countP Call.isEdit = 0 ∧
      (reconcileUpdate "abc" terminatedUpdateSpec terminatedUpdateDesired
        terminatedUpdateEnv).trace.countP Call.isStart = 1 ∧
      (reconcileUpdate "abc" terminatedUpdateSpec terminatedUpdateDesired
        terminatedUpdateEnv).trace.countP Call.isEdit = 1 ∧
      obsAfter none [Call.getCall "abc" (.ok terminatedInfo),
        Call.editCall (withID "abc" terminatedUpdateSpec),
        Call.libStatusCall "abc" (terminatedUpdateEnv.libResps.headD [])] =
        some ClusterState.terminated ∧
      guardedWhileRunning Call.isLibMutation none
        (reconcileUpdate "abc" terminatedUpdateSpec terminatedUpdateDesired
          terminatedUpdateEnv).trace = true :=
  c1_update_edit_before_start "abc" terminatedUpdateSpec
    terminatedUpdateDesired terminatedUpdateEnv terminatedInfo
    [Except.ok runningInfo, Except.ok terminatedInfo] rfl rfl
    (by decide) (by decide) (by decide) (by decide)

/-- C2 (counterexample): at the scenario of
TestResourceClusterUpdate_LibrariesChangeOnTerminatedCluster the cluster
was not Running and was started solely to apply the library changes, yet
the trace contains a delete (terminate) call and the last observed phase
is Terminated — the cluster is re-terminated, not left running. -/
theorem c2_no_reterminate_counterexample :
    terminatedInfo.state ≠ ClusterState.running ∧
    (reconcileUpdate "abc" terminatedUpdateSpec terminatedUpdateDesired
      terminatedUpdateEnv).trace.countP Call.isStart = 1 ∧
    (reconcileUpdate "abc" terminatedUpdateSpec terminatedUpdateDesired
      terminatedUpdateEnv).trace.countP Call.isDelete = 1 ∧
    obsAfter none (reconcileUpdate "abc" terminatedUpdateSpec
      terminatedUpdateDesired terminatedUpdateEnv).trace =
      some ClusterState.terminated := by
  decide

/-- C2 (amended): when the cluster was not Running and was started solely
to perform the library part of the update, the engine re-terminates it:
after the library calls converge it issues exactly one delete call,
followed only by the gets that poll for Terminated. -/
theorem c2_update_reterminates (cid : String) (spec : Cluster)
    (desired : List Library) (env : Env) (info : ClusterInfo)
    (restGets : List (Except ApiError ClusterInfo))
    (hGet : env.getResps = .ok info :: restGets)
    (hNotRun : info.state ≠ ClusterState.running)
    (hDelta : ((installSet desired (env.libResps.headD [])).isEmpty &&
      (uninstallSet desired (env.libResps.headD [])).isEmpty) = false)
    (hStart : (pollCluster cid isRunningInfo false restGets).result = .ok ())
    (hLibs : (pollLibs cid env.libResps.tail).result = .ok ()) :
    ∃ t₁, (reconcileUpdate cid spec desired env).trace =
      t₁ ++ Call.deleteCall cid ::
        (pollCluster cid isTerminatedInfo true
          (pollCluster cid isRunningInfo false restGets).rest).trace ∧
      (reconcileUpdate cid spec desired env).trace.countP
        Call.isDelete = 1 ∧
      (∀ c ∈ (pollCluster cid isTerminatedInfo true
        (pollCluster cid isRunningInfo false restGets).rest).trace,
        c.isGet = true) ∧
      (reconcileUpdate cid spec desired env).trace.countP
        Call.isStart = 1 := by
  have htr := reconcileUpdate_trace_eq cid spec desired env info restGets
    hGet hDelta hNotRun hStart hLibs
  have hptG := pollCluster_trace_all_get cid isRunningInfo false restGets
  have hrtG := pollCluster_trace_all_get cid isTerminatedInfo true
    (pollCluster cid isRunningInfo false restGets).rest
  have hqF := pollLibs_trace_flags cid env.libResps.tail
  have hpD : (pollCluster cid isRunningInfo false restGets).trace.countP
      Call.isDelete = 0 :=
    countP_eq_zero_of_no_match fun c hc =>
      (Call.flags_of_get (hptG c hc)).2.2.2.1
  have hrD : (pollCluster cid isTerminatedInfo true
      (pollCluster cid isRunningInfo false restGets).rest).trace.countP
      Call.isDelete = 0 :=
    countP_eq_zero_of_no_match fun c hc =>
      (Call.flags_of_get (hrtG c hc)).2.2.2.1
  have hqD : (pollLibs cid env.libResps.tail).trace.countP
      Call.isDelete = 0 :=
    countP_eq_zero_of_no_match fun c hc => (hqF c hc).2.2.2.2.1
  have hpS : (pollCluster cid isRunningInfo false restGets).trace.countP
      Call.isStart = 0 :=
    countP_eq_zero_of_no_match fun c hc => (Call.flags_of_get (hptG c hc)).1
  have hrS : (pollCluster cid isTerminatedInfo true
      (pollCluster cid isRunningInfo false restGets).rest).trace.countP
      Call.isStart = 0 :=
    countP_eq_zero_of_no_match fun c hc => (Call.flags_of_get (hrtG c hc)).1
  have hqS : (pollLibs cid env.libResps.tail).trace.countP Call.isStart = 0 :=
    countP_eq_zero_of_no_match fun c hc => (hqF c hc).2.1
  refine ⟨Call.getCall cid (.ok info) ::
    (if shapeDiffers spec info then [Call.editCall (withID cid spec)]
      else []) ++
    Call.libStatusCall cid (env.libResps.headD []) ::
    Call.startCall cid ::
    (pollCluster cid isRunningInfo false restGets).trace ++
    (if (uninstallSet desired (env.libResps.headD [])).isEmpty then []
      else [Call.uninstallCall cid
        (uninstallSet desired (env.libResps.headD []))]) ++
    (if (installSet desired (env.libResps.headD [])).isEmpty then []
      else [Call.installCall cid
        (installSet desired (env.libResps.headD []))]) ++
    (pollLibs cid env.libResps.tail).trace,
    ?_, ?_, hrtG, ?_⟩
  · rw [htr]
  · rw [htr]
    simp [List.countP_append, List.countP_cons,
      apply_ite (List.countP Call.isDelete), hpD, hqD, hrD]
  · rw [htr]
    simp [List.countP_append, List.countP_cons,
      apply_ite (List.countP Call.isStart), hpS, hqS, hrS]

/-- Witness for C2 (amended) at the scenario of the terminated-cluster
update test. -/
theorem c2_update_reterminates_witness :
    ∃ t₁, (reconcileUpdate "abc" terminatedUpdateSpec terminatedUpdateDesired
      terminatedUpdateEnv).trace =
      t₁ ++ Call.deleteCall "abc" ::
        (pollCluster "abc" isTerminatedInfo true
          (pollCluster "abc" isRunningInfo false
            [Except.ok runningInfo, Except.ok terminatedInfo]).rest).trace ∧
      (reconcileUpdate "abc" terminatedUpdateSpec terminatedUpdateDesired
        terminatedUpdateEnv).trace.countP Call.isDelete = 1 ∧
      (∀ c ∈ (pollCluster "abc" isTerminatedInfo true
        (pollCluster "abc" isRunningInfo false
          [Except.ok runningInfo, Except.ok terminatedInfo]).rest).trace,
        c.isGet = true) ∧
      (reconcileUpdate "abc" terminatedUpdateSpec terminatedUpdateDesired
        terminatedUpdateEnv).trace.countP Call.isStart = 1 :=
  c2_update_reterminates "abc" terminatedUpdateSpec terminatedUpdateDesired
    terminatedUpdateEnv terminatedInfo
    [Except.ok runningInfo, Except.ok terminatedInfo] rfl
    (by decide) (by decide) (by decide) (by decide)
